import Mathlib

/-!
Shallow embedding of the WebSocket sidecar of `drawio-mcp` (src/index.ts,
sidecar section): connection registry, file-scoped message routing,
request correlation, relay fallback and lifecycle control.

Connections are modelled by an id plus their socket open state; the
module-level mutable variables of the source become fields of
`SidecarState`.  JS `Map`s become association lists with `Map.set` /
`Map.get` / `Map.delete` semantics.  I/O outcomes (bind result, relay
connect result) are passed in as oracle parameters; `path.resolve` is an
abstract resolver parameter.
-/

namespace DrawioSidecar

/-- One WebSocket connection: identity plus whether
`readyState === WebSocket.OPEN` holds. -/
structure Conn where
  id : Nat
  readyStateOpen : Bool
deriving DecidableEq, Repr

/-- The wire message envelope (`SidecarMessage` in the source). -/
structure SidecarMessage where
  type : String
  filePath : Option String
  pid : Option Nat
  requestId : Option String
deriving DecidableEq, Repr

/-- The module-level mutable state of the sidecar module:
`wss` (server socket held), `clients` (extension/Controller sockets),
`drawioClients` (draw.io/Endpoint sockets), `drawioClientFiles`
(Endpoint socket ↦ normalized registered file), `pendingRequests`
(requestId ↦ timer handle), relay socket state, reconnect timer,
`relayPort` and `isRelayMode`. -/
structure SidecarState where
  wss : Bool
  clients : List Conn
  drawioClients : List Conn
  drawioClientFiles : List (Conn × String)
  pendingRequests : List (String × Nat)
  relayWsOpen : Option Bool
  relayReconnectTimer : Bool
  relayPort : Nat
  isRelayMode : Bool
deriving DecidableEq, Repr

/-- `const DEFAULT_PORT = 9219`. -/
def DEFAULT_PORT : Nat := 9219

/-- `const RECONNECT_DELAY_MS = 3000`. -/
def RECONNECT_DELAY_MS : Nat := 3000

/-- `normalizePath`: `path.resolve(filePath).toLowerCase()`, with
`path.resolve` abstracted as the `resolve` parameter. -/
def normalizePath (resolve : String → String) (filePath : String) : String :=
  (resolve filePath).toLower

/-- JS `Map.set` on an association list: replace the value in place when
the key is present, append otherwise. -/
def mapSet (m : List (String × Nat)) (k : String) (v : Nat) :
    List (String × Nat) :=
  match m with
  | [] => [(k, v)]
  | p :: rest => if p.1 = k then (k, v) :: rest else p :: mapSet rest k v

/-- JS `Map.get` on an association list. -/
def mapGet (m : List (String × Nat)) (k : String) : Option Nat :=
  (m.find? (fun p => p.1 == k)).map Prod.snd

/-- JS `Map.delete` on an association list. -/
def mapDelete (m : List (String × Nat)) (k : String) : List (String × Nat) :=
  m.filter (fun p => !(p.1 == k))

/-- `Map.get` on the Endpoint-socket ↦ registered-file map. -/
def fileMapGet (m : List (Conn × String)) (k : Conn) : Option String :=
  (m.find? (fun p => p.1 == k)).map Prod.snd

/-- `Map.set` on the Endpoint-socket ↦ registered-file map. -/
def fileMapSet (m : List (Conn × String)) (k : Conn) (v : String) :
    List (Conn × String) :=
  match m with
  | [] => [(k, v)]
  | p :: rest => if p.1 = k then (k, v) :: rest else p :: fileMapSet rest k v

/-- `getTargetDrawioClients`: with no `filePath`, all draw.io clients
(broadcast); with a `filePath`, the draw.io clients whose registered file
equals the normalized path and whose socket is open. -/
def getTargetDrawioClients (resolve : String → String) (st : SidecarState)
    (filePath : Option String) : List Conn :=
  match filePath with
  | none => st.drawioClients
  | some fp =>
    let normalized := normalizePath resolve fp
    (st.drawioClientFiles.filter
      (fun p => p.1.readyStateOpen && p.2 == normalized)).map Prod.fst

/-- The observable effect of one `sendToDrawio` call: either the payload
went up the relay link, or it was delivered locally to the listed
Endpoint and Controller connections. -/
inductive SendResult where
  | relayedUpstream
  | delivered (endpoints : List Conn) (controllers : List Conn)
deriving DecidableEq, Repr

/-- The Endpoint connections a `SendResult` delivered to locally. -/
def SendResult.endpoints : SendResult → List Conn
  | .relayedUpstream => []
  | .delivered es _ => es

/-- The Controller connections a `SendResult` delivered to locally. -/
def SendResult.controllers : SendResult → List Conn
  | .relayedUpstream => []
  | .delivered _ cs => cs

/-- `sendToDrawio`: tag the message with the sender pid; in relay mode
with an open upstream socket, forward upstream; otherwise deliver to the
open file-scoped draw.io targets and to every open extension client. -/
def sendToDrawio (resolve : String → String) (selfPid : Nat)
    (st : SidecarState) (msg : SidecarMessage) : SidecarMessage × SendResult :=
  let tagged : SidecarMessage :=
    { type := msg.type, filePath := msg.filePath, pid := some selfPid,
      requestId := msg.requestId }
  if st.isRelayMode && st.relayWsOpen == some true then
    (tagged, .relayedUpstream)
  else
    let targets := getTargetDrawioClients resolve st msg.filePath
    (tagged,
     .delivered (targets.filter (fun c => c.readyStateOpen))
       (st.clients.filter (fun c => c.readyStateOpen)))

/-- `const STOP_ERROR` text used by `stopSidecar` when rejecting pending
requests: `new Error('Sidecar stopped')`. -/
def STOP_ERROR_MESSAGE : String := "Sidecar stopped"

/-- Timeout rejection text in `sendToDrawioAndWait`. -/
def TIMEOUT_ERROR_MESSAGE : String :=
  "Timeout waiting for draw.io editor response (is the diagram open?)"

/-- Default `timeoutMs` of `sendToDrawioAndWait`. -/
def DEFAULT_WAIT_TIMEOUT_MS : Nat := 15000

/-- The observable effect of one `stopSidecar` call: the new module state
and the list of pending requests rejected during teardown, each with the
error message used. -/
structure StopResult where
  newState : SidecarState
  rejectedDuringStop : List (String × String)
deriving DecidableEq, Repr

/-- `stopSidecar`: when a server socket is held, close every client,
close the server, clear all registries, and reject every pending request
with `'Sidecar stopped'`; then unconditionally drop the relay socket,
cancel the reconnect timer and leave relay mode.  Note the pending-request
rejection happens only inside the `if (wss)` branch. -/
def stopSidecar (st : SidecarState) : StopResult :=
  let serverPart :=
    if st.wss then
      ({ st with wss := false, clients := [], drawioClients := [],
                 drawioClientFiles := [], pendingRequests := [] },
       st.pendingRequests.map (fun p => (p.1, STOP_ERROR_MESSAGE)))
    else (st, [])
  { newState :=
      { serverPart.1 with relayWsOpen := none, relayReconnectTimer := false,
                          isRelayMode := false },
    rejectedDuringStop := serverPart.2 }

/-- Outcome of one `tryBindServer` attempt: success, or rejection with
the OS error code. -/
inductive BindOutcome where
  | ok
  | err (code : String)
deriving DecidableEq, Repr

/-- `becomeServer`: clean up relay state (close relay socket, cancel
reconnect timer, leave relay mode) and hold the freshly bound server. -/
def becomeServer (st : SidecarState) : SidecarState :=
  { st with relayWsOpen := none, relayReconnectTimer := false,
            isRelayMode := false, wss := true }

/-- State effect of a successful `connectRelay`: an open upstream socket
and relay mode on. -/
def connectRelaySuccess (st : SidecarState) : SidecarState :=
  { st with relayWsOpen := some true, isRelayMode := true }

/-- State effect of `scheduleReconnect`: arm the retry timer unless one
is already armed. -/
def scheduleReconnectArm (st : SidecarState) : SidecarState :=
  if st.relayReconnectTimer then st else { st with relayReconnectTimer := true }

/-- How one `startSidecar` call settles, as seen by its caller. -/
inductive StartOutcome where
  | resolvedNoop
  | resolvedLeader
  | resolvedRelay
  | resolvedRetryPending
  | rejected (code : String)
deriving DecidableEq, Repr

/-- `startSidecar port`: store the port in `relayPort`; if already server
or relay, resolve immediately; otherwise try to bind — on success become
server; on `EADDRINUSE` try to connect as relay, scheduling a delayed
retry when that also fails; any other bind error rejects the returned
promise.  `bind` and `relayConnects` are the oracle outcomes of the two
I/O attempts. -/
def startSidecar (st : SidecarState) (port : Nat) (bind : BindOutcome)
    (relayConnects : Bool) : SidecarState × StartOutcome :=
  let st0 := { st with relayPort := port }
  if st0.wss || st0.isRelayMode then (st0, .resolvedNoop)
  else
    match bind with
    | .ok => (becomeServer st0, .resolvedLeader)
    | .err code =>
      if code = "EADDRINUSE" then
        if relayConnects then (connectRelaySuccess st0, .resolvedRelay)
        else (scheduleReconnectArm st0, .resolvedRetryPending)
      else (st0, .rejected code)

/-- What one fired reconnect-timer callback did (`scheduleReconnect`'s
`setTimeout` body): whether the process became server, whether a relay
connection was attempted and succeeded, and the delay of the next retry
when one was scheduled. -/
structure ReconnectTickResult where
  becameServer : Bool
  attemptedRelay : Bool
  relayConnected : Bool
  nextRetryDelayMs : Option Nat
deriving DecidableEq, Repr

/-- The reconnect-timer callback: first try to claim the port as server;
on success, become server and return without any relay attempt; otherwise
fall back to a relay connection; when that also fails, schedule another
attempt after `RECONNECT_DELAY_MS`. -/
def reconnectTick (bindSucceeds relaySucceeds : Bool) : ReconnectTickResult :=
  if bindSucceeds then
    { becameServer := true, attemptedRelay := false, relayConnected := false,
      nextRetryDelayMs := none }
  else if relaySucceeds then
    { becameServer := false, attemptedRelay := true, relayConnected := true,
      nextRetryDelayMs := none }
  else
    { becameServer := false, attemptedRelay := true, relayConnected := false,
      nextRetryDelayMs := some RECONNECT_DELAY_MS }

/-- `sendToDrawioAndWait` (registration part): start the deadline timer,
record the PendingRequest under the message's `requestId`, and send the
message. -/
def sendToDrawioAndWaitRegister (resolve : String → String) (selfPid : Nat)
    (st : SidecarState) (msg : SidecarMessage) (requestId : String)
    (timerId : Nat) : SidecarState × SendResult :=
  let st1 :=
    { st with pendingRequests := mapSet st.pendingRequests requestId timerId }
  (st1, (sendToDrawio resolve selfPid st1 msg).2)

/-- The deadline-timer callback of `sendToDrawioAndWait`: delete the
PendingRequest entry and reject with the timeout error. -/
def waitTimeoutFire (st : SidecarState) (requestId : String) :
    SidecarState × String :=
  ({ st with pendingRequests := mapDelete st.pendingRequests requestId },
   TIMEOUT_ERROR_MESSAGE)

/-- What the server-side handler did with one message arriving from an
Endpoint (draw.io) connection. -/
inductive EndpointAction where
  | registered (normalizedFile : String)
  | response (resolvedLocal : Option String) (forwardedTo : List Conn)
  | userEvent (taggedFilePath : Option String) (forwardedTo : List Conn)
  | ignored
deriving DecidableEq, Repr

/-- The correlator branch of the server-side message handler for a
`requestId`-carrying message from an Endpoint connection: a matching
PendingRequest is resolved and removed; in every case the raw payload is
then forwarded to every open extension client. -/
def correlateEndpointResponse (st : SidecarState) (r : String) :
    SidecarState × EndpointAction :=
  match mapGet st.pendingRequests r with
  | some _ =>
    ({ st with pendingRequests := mapDelete st.pendingRequests r },
     .response (some r) (st.clients.filter (fun c => c.readyStateOpen)))
  | none =>
    (st, .response none (st.clients.filter (fun c => c.readyStateOpen)))

/-- The `ws.on('message')` handler of `attachConnectionHandlers`,
restricted to messages whose sender is an Endpoint (draw.io) connection:
a `register` message with a `filePath` updates the registration map; a
message carrying a `requestId` goes through `correlateEndpointResponse`;
a `userSelection` or `userCursor` event is tagged with the sender's
registered file and forwarded to every open extension client; anything
else falls through. -/
def handleEndpointMessage (resolve : String → String) (st : SidecarState)
    (conn : Conn) (msg : SidecarMessage) : SidecarState × EndpointAction :=
  if h : msg.type = "register" ∧ msg.filePath.isSome then
    let fp := msg.filePath.get (h.2)
    let n := normalizePath resolve fp
    ({ st with drawioClientFiles := fileMapSet st.drawioClientFiles conn n },
     .registered n)
  else
    match msg.requestId with
    | some r => correlateEndpointResponse st r
    | none =>
      if msg.type = "userSelection" ∨ msg.type = "userCursor" then
        let tagged :=
          match fileMapGet st.drawioClientFiles conn with
          | some rf => some rf
          | none => msg.filePath
        (st, .userEvent tagged (st.clients.filter (fun c => c.readyStateOpen)))
      else (st, .ignored)

/-- The `ws.on('message')` handler installed by `connectRelay` on the
upstream socket: a message whose `requestId` matches a local
PendingRequest resolves and removes it (returning `true`); everything
else leaves the correlator untouched. -/
def relayHandleMessage (st : SidecarState) (msg : SidecarMessage) :
    SidecarState × Bool :=
  match msg.requestId with
  | some r =>
    if (mapGet st.pendingRequests r).isSome then
      ({ st with pendingRequests := mapDelete st.pendingRequests r }, true)
    else (st, false)
  | none => (st, false)

/-- Insertion-order deduplication, as `[...new Set(values)]` produces. -/
def jsSetDedup (l : List String) : List String :=
  l.foldl (fun acc x => if acc.contains x then acc else acc ++ [x]) []

/-- The diagnostic record returned by `getClientCount`. -/
structure ClientCount where
  extensions : Nat
  drawioPlugins : Nat
  relayMode : Bool
  registeredFiles : List String
deriving DecidableEq, Repr

/-- `getClientCount`: in relay mode, report zero clients, `relayMode:
true` and no registered files; in server mode, the registry counts and
the distinct registered file paths. -/
def getClientCount (st : SidecarState) : ClientCount :=
  if st.isRelayMode then
    { extensions := 0, drawioPlugins := 0, relayMode := true,
      registeredFiles := [] }
  else
    { extensions := st.clients.length, drawioPlugins := st.drawioClients.length,
      relayMode := false,
      registeredFiles := jsSetDedup (st.drawioClientFiles.map Prod.snd) }

/-- `hasConnectedClients`: in relay mode, whether the upstream socket is
open; in server mode, whether any client of either role is tracked. -/
def hasConnectedClients (st : SidecarState) : Bool :=
  if st.isRelayMode then st.relayWsOpen == some true
  else decide (0 < st.clients.length) || decide (0 < st.drawioClients.length)

/-- `hasConnectedDrawioClient`: always `false` in relay mode; with no
`filePath`, whether any draw.io client is tracked; with a `filePath`,
whether some open draw.io client registered the normalized path. -/
def hasConnectedDrawioClient (resolve : String → String) (st : SidecarState)
    (filePath : Option String) : Bool :=
  if st.isRelayMode then false
  else
    match filePath with
    | none => decide (0 < st.drawioClients.length)
    | some fp =>
      let normalized := normalizePath resolve fp
      st.drawioClientFiles.any
        (fun p => p.1.readyStateOpen && p.2 == normalized)

/-- Which implementation path a file-editing tool takes. -/
inductive EditPath where
  | live
  | fileFallback
deriving DecidableEq, Repr

/-- The gate of the `add_node` tool handler: resolve the path, then use
the live `graph-edit` protocol when `hasConnectedDrawioClient` holds for
it, and the file-I/O fallback otherwise. -/
def addNodeEditPath (resolve : String → String) (st : SidecarState)
    (filePath : String) : EditPath :=
  if hasConnectedDrawioClient resolve st (some (resolve filePath)) then
    .live
  else .fileFallback

/-! Sample inputs used to instantiate the theorems below. -/

/-- An open Endpoint connection registered to `/tmp/a.drawio`. -/
def connE1 : Conn := { id := 1, readyStateOpen := true }

/-- An open Endpoint connection registered to `/tmp/b.drawio`. -/
def connE2 : Conn := { id := 2, readyStateOpen := true }

/-- An open Controller (extension) connection. -/
def connC : Conn := { id := 3, readyStateOpen := true }

/-- A Leader-mode state with two registered Endpoint clients and one
Controller client. -/
def sampleLeaderState : SidecarState :=
  { wss := true, clients := [connC], drawioClients := [connE1, connE2],
    drawioClientFiles :=
      [(connE1, "/tmp/a.drawio"), (connE2, "/tmp/b.drawio")],
    pendingRequests := [], relayWsOpen := none, relayReconnectTimer := false,
    relayPort := 9219, isRelayMode := false }

/-- A Leader-mode state with one outstanding pending request. -/
def sampleLeaderPending : SidecarState :=
  { wss := true, clients := [connC], drawioClients := [connE1],
    drawioClientFiles := [(connE1, "/tmp/a.drawio")],
    pendingRequests := [("rq-9", 5)], relayWsOpen := none,
    relayReconnectTimer := false, relayPort := 9219, isRelayMode := false }

/-- A Relay-mode state with an open upstream socket and one outstanding
pending request. -/
def sampleRelayState : SidecarState :=
  { wss := false, clients := [], drawioClients := [], drawioClientFiles := [],
    pendingRequests := [("req-1", 7)], relayWsOpen := some true,
    relayReconnectTimer := false, relayPort := 9219, isRelayMode := true }

/-- A Relay-mode peer process whose correlator holds the pending request
`rq-9`. -/
def samplePendingRelayPeer : SidecarState :=
  { wss := false, clients := [], drawioClients := [], drawioClientFiles := [],
    pendingRequests := [("rq-9", 11)], relayWsOpen := some true,
    relayReconnectTimer := false, relayPort := 9219, isRelayMode := true }

/-- A freshly created, unstarted state: no server socket, no clients,
not in relay mode. -/
def sampleUnstartedState : SidecarState :=
  { wss := false, clients := [], drawioClients := [], drawioClientFiles := [],
    pendingRequests := [], relayWsOpen := none, relayReconnectTimer := false,
    relayPort := 9219, isRelayMode := false }

/-- A file-scoped `highlight` message addressed to `/tmp/a.drawio`. -/
def sampleMsgScoped : SidecarMessage :=
  { type := "highlight", filePath := some "/tmp/a.drawio", pid := none,
    requestId := none }

/-- An unscoped `status` message. -/
def sampleMsgBroadcast : SidecarMessage :=
  { type := "status", filePath := none, pid := none, requestId := none }

/-- A `graph-edit-result` response carrying requestId `rq-9`. -/
def sampleMsgResponse : SidecarMessage :=
  { type := "graph-edit-result", filePath := none, pid := none,
    requestId := some "rq-9" }

/-! Helper lemmas about the association-list maps. -/

/-- Looking up a key right after `Map.set` yields the stored value. -/
theorem mapGet_mapSet_self (m : List (String × Nat)) (k : String) (v : Nat) :
    mapGet (mapSet m k v) k = some v := by
  induction m with
  | nil => simp [mapSet, mapGet]
  | cons p rest ih =>
    rw [mapSet]
    by_cases h : p.1 = k
    · rw [if_pos h]; simp [mapGet]
    · rw [if_neg h, mapGet, List.find?_cons_of_neg]
      · exact ih
      · simp [h]

/-- Looking up a key right after `Map.delete` yields nothing. -/
theorem mapGet_mapDelete_self (m : List (String × Nat)) (k : String) :
    mapGet (mapDelete m k) k = none := by
  induction m with
  | nil => simp [mapDelete, mapGet]
  | cons p rest ih =>
    by_cases h : p.1 = k
    · have hstep : mapDelete (p :: rest) k = mapDelete rest k := by
        simp [mapDelete, List.filter_cons, h]
      rw [hstep]; exact ih
    · have hstep : mapDelete (p :: rest) k = p :: mapDelete rest k := by
        simp [mapDelete, List.filter_cons, h]
      rw [hstep, mapGet, List.find?_cons_of_neg]
      · exact ih
      · simp [h]

/-- Membership in the locally delivered Endpoint set of a file-scoped
send, outside relay forwarding: exactly the open connections registered
to the normalized path. -/
theorem mem_sendToDrawio_scoped_endpoints (resolve : String → String)
    (selfPid : Nat) (st : SidecarState) (msg : SidecarMessage) (F : String)
    (c : Conn) (hmode : st.isRelayMode = false)
    (hfp : msg.filePath = some F) :
    c ∈ ((sendToDrawio resolve selfPid st msg).2).endpoints ↔
      ((c, normalizePath resolve F) ∈ st.drawioClientFiles ∧
        c.readyStateOpen = true) := by
  have hcond : (st.isRelayMode && st.relayWsOpen == some true) = false := by
    rw [hmode]; rfl
  rw [sendToDrawio]
  simp only [hcond, Bool.false_eq_true, if_false, hfp, getTargetDrawioClients,
    SendResult.endpoints]
  constructor
  · intro hc
    rw [List.mem_filter] at hc
    obtain ⟨hmem, hopen⟩ := hc
    rw [List.mem_map] at hmem
    obtain ⟨p, hpmem, hpc⟩ := hmem
    rw [List.mem_filter] at hpmem
    obtain ⟨hpfiles, hq⟩ := hpmem
    have h2 : p.2 = normalizePath resolve F := by
      have := (Bool.and_eq_true _ _).mp hq
      exact eq_of_beq this.2
    have hpair : p = (c, normalizePath resolve F) := by
      obtain ⟨p1, p2⟩ := p
      simp only at hpc h2
      rw [hpc, h2]
    exact ⟨hpair ▸ hpfiles, hopen⟩
  · rintro ⟨hmem, hopen⟩
    rw [List.mem_filter]
    refine ⟨?_, hopen⟩
    rw [List.mem_map]
    refine ⟨(c, normalizePath resolve F), ?_, rfl⟩
    rw [List.mem_filter]
    exact ⟨hmem, by simp [hopen]⟩

/-- Claim C1: in Leader (server) mode, a message sent through
`sendToDrawio` with `filePath = F` is delivered to an Endpoint (draw.io)
connection exactly when that connection's registered file equals the
normalized `F` and its socket is open; an Endpoint connection registered
to a different path, or with no registration, never receives it. -/
theorem claim_C1_scoped_delivery (resolve : String → String) (selfPid : Nat)
    (st : SidecarState) (msg : SidecarMessage) (F : String) (c : Conn)
    (hmode : st.isRelayMode = false) (hfp : msg.filePath = some F) :
    c ∈ ((sendToDrawio resolve selfPid st msg).2).endpoints ↔
      ((c, normalizePath resolve F) ∈ st.drawioClientFiles ∧
        c.readyStateOpen = true) :=
  mem_sendToDrawio_scoped_endpoints resolve selfPid st msg F c hmode hfp

/-- Witness for C1 at a concrete Leader-mode state: the Endpoint client
registered to `/tmp/a.drawio` receives a message scoped to that file
exactly because its registration matches. -/
theorem claim_C1_scoped_delivery_witness :
    sampleLeaderState.isRelayMode = false ∧
    sampleMsgScoped.filePath = some "/tmp/a.drawio" ∧
    (connE1 ∈
        ((sendToDrawio (fun s => s) 42 sampleLeaderState
            sampleMsgScoped).2).endpoints ↔
      ((connE1, normalizePath (fun s => s) "/tmp/a.drawio") ∈
          sampleLeaderState.drawioClientFiles ∧
        connE1.readyStateOpen = true)) :=
  ⟨rfl, rfl,
    claim_C1_scoped_delivery (fun s => s) 42 sampleLeaderState sampleMsgScoped
      "/tmp/a.drawio" connE1 rfl rfl⟩

/-- Claim C2: in Leader (server) mode, a message sent through
`sendToDrawio` with no `filePath` is delivered to exactly the open
Endpoint connections and the open Controller (extension) connections. -/
theorem claim_C2_broadcast_delivery (resolve : String → String)
    (selfPid : Nat) (st : SidecarState) (msg : SidecarMessage) (c : Conn)
    (hmode : st.isRelayMode = false) (hfp : msg.filePath = none) :
    (c ∈ ((sendToDrawio resolve selfPid st msg).2).endpoints ↔
        (c ∈ st.drawioClients ∧ c.readyStateOpen = true)) ∧
    (c ∈ ((sendToDrawio resolve selfPid st msg).2).controllers ↔
        (c ∈ st.clients ∧ c.readyStateOpen = true)) := by
  have hcond : (st.isRelayMode && st.relayWsOpen == some true) = false := by
    rw [hmode]; rfl
  rw [sendToDrawio]
  simp only [hcond, Bool.false_eq_true, if_false, hfp, getTargetDrawioClients,
    SendResult.endpoints, SendResult.controllers]
  exact ⟨List.mem_filter, List.mem_filter⟩

/-- Witness for C2 at a concrete Leader-mode state: with no `filePath`
on the message, the second Endpoint client and the Controller client are
both among the delivery targets exactly because they are connected. -/
theorem claim_C2_broadcast_delivery_witness :
    sampleLeaderState.isRelayMode = false ∧
    sampleMsgBroadcast.filePath = none ∧
    ((connE2 ∈
        ((sendToDrawio (fun s => s) 42 sampleLeaderState
            sampleMsgBroadcast).2).endpoints ↔
      (connE2 ∈ sampleLeaderState.drawioClients ∧
        connE2.readyStateOpen = true)) ∧
     (connE2 ∈
        ((sendToDrawio (fun s => s) 42 sampleLeaderState
            sampleMsgBroadcast).2).controllers ↔
      (connE2 ∈ sampleLeaderState.clients ∧
        connE2.readyStateOpen = true))) :=
  ⟨rfl, rfl,
    claim_C2_broadcast_delivery (fun s => s) 42 sampleLeaderState
      sampleMsgBroadcast connE2 rfl rfl⟩

/-- Counterexample to claim C3 as stated: in Relay mode (no server
socket held) with one outstanding pending request, `stopSidecar` rejects
nothing and leaves the PendingRequest in the correlator map, so it is
left to time out after stop returns. -/
theorem claim_C3_counterexample :
    sampleRelayState.isRelayMode = true ∧
    sampleRelayState.pendingRequests = [("req-1", 7)] ∧
    (stopSidecar sampleRelayState).rejectedDuringStop = [] ∧
    (stopSidecar sampleRelayState).newState.pendingRequests =
      [("req-1", 7)] :=
  ⟨rfl, rfl, rfl, rfl⟩

/-- Claim C3 amended: `stopSidecar` synchronously rejects every
outstanding PendingRequest with the `'Sidecar stopped'` error and clears
the correlator map only when the process holds the server socket (Leader
mode); in Relay mode the pending requests are not rejected and survive
teardown unchanged. -/
theorem claim_C3_stop_rejection_scope (st : SidecarState) :
    (st.wss = true →
      (stopSidecar st).rejectedDuringStop =
          st.pendingRequests.map (fun p => (p.1, STOP_ERROR_MESSAGE)) ∧
        (stopSidecar st).newState.pendingRequests = []) ∧
    (st.wss = false →
      (stopSidecar st).rejectedDuringStop = [] ∧
        (stopSidecar st).newState.pendingRequests = st.pendingRequests) := by
  constructor
  · intro h
    simp [stopSidecar, h]
  · intro h
    simp [stopSidecar, h]

/-- Witness for the amended C3 at a concrete Leader-mode state with one
pending request: it is rejected with the stop error and the map is
cleared. -/
theorem claim_C3_stop_rejection_scope_witness :
    sampleLeaderPending.wss = true ∧
    ((stopSidecar sampleLeaderPending).rejectedDuringStop =
        sampleLeaderPending.pendingRequests.map
          (fun p => (p.1, STOP_ERROR_MESSAGE)) ∧
      (stopSidecar sampleLeaderPending).newState.pendingRequests = []) :=
  ⟨rfl, (claim_C3_stop_rejection_scope sampleLeaderPending).1 rfl⟩

/-- Claim C4: registering a request with `sendToDrawioAndWait` records it
in the correlator under its `requestId`; when no matching response ever
arrives, the deadline-timer callback rejects with the timeout error and
removes the entry from the map, and the default timeout is 15000 ms. -/
theorem claim_C4_timeout_cleanup (resolve : String → String) (selfPid : Nat)
    (st : SidecarState) (msg : SidecarMessage) (r : String) (t : Nat) :
    mapGet
        ((sendToDrawioAndWaitRegister resolve selfPid st msg r
            t).1).pendingRequests r = some t ∧
    (waitTimeoutFire
        (sendToDrawioAndWaitRegister resolve selfPid st msg r t).1 r).2 =
      TIMEOUT_ERROR_MESSAGE ∧
    mapGet
        ((waitTimeoutFire
            (sendToDrawioAndWaitRegister resolve selfPid st msg r
              t).1 r).1).pendingRequests r = none ∧
    DEFAULT_WAIT_TIMEOUT_MS = 15000 := by
  refine ⟨?_, rfl, ?_, rfl⟩
  · exact mapGet_mapSet_self st.pendingRequests r t
  · exact mapGet_mapDelete_self _ r

/-- Claim C5: on every fired reconnect tick, the process first attempts
to rebind as Leader — on success no relay connection is attempted; only
when the bind fails is a relay connection attempted; and when both fail,
the next retry is scheduled after the fixed 3000 ms delay. -/
theorem claim_C5_retry_leader_first (bindSucceeds relaySucceeds : Bool) :
    (bindSucceeds = true →
      (reconnectTick bindSucceeds relaySucceeds).becameServer = true ∧
        (reconnectTick bindSucceeds relaySucceeds).attemptedRelay = false) ∧
    (bindSucceeds = false →
      (reconnectTick bindSucceeds relaySucceeds).attemptedRelay = true) ∧
    (bindSucceeds = false → relaySucceeds = false →
      (reconnectTick bindSucceeds relaySucceeds).nextRetryDelayMs =
          some 3000 ∧
        RECONNECT_DELAY_MS = 3000) := by
  refine ⟨?_, ?_, ?_⟩
  · intro h; simp [reconnectTick, h]
  · intro h; cases hr : relaySucceeds <;> simp [reconnectTick, h, hr]
  · intro h hr; simp [reconnectTick, h, hr, RECONNECT_DELAY_MS]

/-- Witness for C5 at the concrete tick where both the bind and the
relay connection fail: a retry is scheduled after exactly 3000 ms. -/
theorem claim_C5_retry_leader_first_witness :
    (false : Bool) = false ∧
    ((reconnectTick false false).attemptedRelay = true ∧
      (reconnectTick false false).nextRetryDelayMs = some 3000 ∧
      RECONNECT_DELAY_MS = 3000) :=
  ⟨rfl,
    (claim_C5_retry_leader_first false false).2.1 rfl,
    (claim_C5_retry_leader_first false false).2.2 rfl rfl⟩

/-- Claim C6: for a not-yet-started process, a bind failure with code
`EADDRINUSE` is never surfaced to the caller of `startSidecar` — the
call settles as Relay mode or as a scheduled retry — while a bind
failure with any other code rejects the returned promise with that
error. -/
theorem claim_C6_bind_failure_routing (st : SidecarState) (port : Nat)
    (relayConnects : Bool) (code : String) (hw : st.wss = false)
    (hr : st.isRelayMode = false) :
    ((startSidecar st port (BindOutcome.err "EADDRINUSE") relayConnects).2 =
        StartOutcome.resolvedRelay ∨
      (startSidecar st port (BindOutcome.err "EADDRINUSE") relayConnects).2 =
        StartOutcome.resolvedRetryPending) ∧
    (code ≠ "EADDRINUSE" →
      (startSidecar st port (BindOutcome.err code) relayConnects).2 =
        StartOutcome.rejected code) := by
  constructor
  · cases hc : relayConnects
    · right; simp [startSidecar, hw, hr]
    · left; simp [startSidecar, hw, hr]
  · intro hne
    simp [startSidecar, hw, hr, hne]

/-- Witness for C6 at a concrete unstarted state: an `EADDRINUSE` bind
failure with a failing relay connection settles as a scheduled retry,
and an `EACCES` bind failure rejects with `EACCES`. -/
theorem claim_C6_bind_failure_routing_witness :
    sampleUnstartedState.wss = false ∧
    sampleUnstartedState.isRelayMode = false ∧
    ((startSidecar sampleUnstartedState 9219
          (BindOutcome.err "EADDRINUSE") false).2 =
        StartOutcome.resolvedRelay ∨
      (startSidecar sampleUnstartedState 9219
          (BindOutcome.err "EADDRINUSE") false).2 =
        StartOutcome.resolvedRetryPending) ∧
    (startSidecar sampleUnstartedState 9219 (BindOutcome.err "EACCES")
        false).2 = StartOutcome.rejected "EACCES" :=
  ⟨rfl, rfl,
    (claim_C6_bind_failure_routing sampleUnstartedState 9219 false "EACCES"
        rfl rfl).1,
    (claim_C6_bind_failure_routing sampleUnstartedState 9219 false "EACCES"
        rfl rfl).2 (by decide)⟩

/-- Claim C7: a response (a non-`register` message carrying a
`requestId`) arriving from an Endpoint connection is first offered to the
local correlator — a matching PendingRequest is resolved and removed, so
no entry for that id remains afterwards — and its raw payload is
forwarded to every open Controller (extension) connection in every case;
a Relay process holding that `requestId` pending then resolves and
removes its own PendingRequest from the forwarded copy. -/
theorem claim_C7_response_correlation (resolve : String → String)
    (st : SidecarState) (conn : Conn) (msg : SidecarMessage) (r : String)
    (rst : SidecarState)
    (hreg : ¬(msg.type = "register" ∧ msg.filePath.isSome = true))
    (hreq : msg.requestId = some r)
    (hrst : (mapGet rst.pendingRequests r).isSome = true) :
    (handleEndpointMessage resolve st conn msg).2 =
        EndpointAction.response
          ((mapGet st.pendingRequests r).map (fun _ => r))
          (st.clients.filter (fun c => c.readyStateOpen)) ∧
    mapGet ((handleEndpointMessage resolve st conn msg).1).pendingRequests
        r = none ∧
    (relayHandleMessage rst msg).2 = true ∧
    mapGet ((relayHandleMessage rst msg).1).pendingRequests r = none := by
  have hstep : handleEndpointMessage resolve st conn msg =
      correlateEndpointResponse st r := by
    unfold handleEndpointMessage
    rw [dif_neg hreg, hreq]
  have hrstep : relayHandleMessage rst msg =
      (if (mapGet rst.pendingRequests r).isSome then
        ({ rst with pendingRequests := mapDelete rst.pendingRequests r },
          true)
      else (rst, false)) := by
    unfold relayHandleMessage
    rw [hreq]
  have hrelay : (relayHandleMessage rst msg).2 = true ∧
      mapGet ((relayHandleMessage rst msg).1).pendingRequests r = none := by
    rw [hrstep]
    constructor
    · simp [hrst]
    · simp only [hrst, if_true]
      exact mapGet_mapDelete_self _ _
  have hmain : (handleEndpointMessage resolve st conn msg).2 =
      EndpointAction.response
        ((mapGet st.pendingRequests r).map (fun _ => r))
        (st.clients.filter (fun c => c.readyStateOpen)) ∧
      mapGet ((handleEndpointMessage resolve st conn
          msg).1).pendingRequests r = none := by
    rw [hstep]
    unfold correlateEndpointResponse
    cases hp : mapGet st.pendingRequests r with
    | some t => exact ⟨rfl, mapGet_mapDelete_self _ _⟩
    | none => exact ⟨rfl, hp⟩
  exact ⟨hmain.1, hmain.2, hrelay.1, hrelay.2⟩

/-- Witness for C7 at a concrete Leader-mode state holding the pending
request `rq-9` and a `graph-edit-result` response carrying that id, with
the Relay correlator holding the same id. -/
theorem claim_C7_response_correlation_witness :
    ¬(sampleMsgResponse.type = "register" ∧
        sampleMsgResponse.filePath.isSome = true) ∧
    sampleMsgResponse.requestId = some "rq-9" ∧
    (mapGet samplePendingRelayPeer.pendingRequests "rq-9").isSome = true ∧
    ((handleEndpointMessage (fun s => s) sampleLeaderPending connE1
          sampleMsgResponse).2 =
        EndpointAction.response
          ((mapGet sampleLeaderPending.pendingRequests "rq-9").map
            (fun _ => "rq-9"))
          (sampleLeaderPending.clients.filter (fun c => c.readyStateOpen)) ∧
      mapGet ((handleEndpointMessage (fun s => s) sampleLeaderPending connE1
            sampleMsgResponse).1).pendingRequests "rq-9" = none ∧
      (relayHandleMessage samplePendingRelayPeer sampleMsgResponse).2 =
        true ∧
      mapGet ((relayHandleMessage samplePendingRelayPeer
            sampleMsgResponse).1).pendingRequests "rq-9" = none) :=
  ⟨by decide, rfl, rfl,
    claim_C7_response_correlation (fun s => s) sampleLeaderPending connE1
      sampleMsgResponse "rq-9" samplePendingRelayPeer (by decide) rfl rfl⟩

/-- Counterexample to claim C8 as stated: calling `startSidecar` on a
process already in Leader mode with a different port returns the
immediately-resolved no-op outcome but still mutates module state — the
stored `relayPort` is overwritten with the new port before the
idempotence guard runs. -/
theorem claim_C8_counterexample :
    sampleLeaderState.wss = true ∧
    sampleLeaderState.relayPort = 9219 ∧
    (startSidecar sampleLeaderState 1234 (BindOutcome.err "EBUSY")
        false).2 = StartOutcome.resolvedNoop ∧
    (startSidecar sampleLeaderState 1234 (BindOutcome.err "EBUSY")
        false).1.relayPort = 1234 ∧
    (startSidecar sampleLeaderState 1234 (BindOutcome.err "EBUSY")
        false).1 ≠ sampleLeaderState := by
  refine ⟨rfl, rfl, rfl, rfl, ?_⟩
  intro h
  have h2 := congrArg SidecarState.relayPort h
  simp [startSidecar, sampleLeaderState] at h2

/-- Claim C8 amended: calling `startSidecar` while already Leader or
Relay returns the immediately-resolved no-op outcome, performs no bind
or relay attempt (the result is independent of both I/O oracles), and
changes no state other than overwriting the stored `relayPort` with the
requested port. -/
theorem claim_C8_start_idempotent_up_to_port (st : SidecarState)
    (port : Nat) (bind : BindOutcome) (relayConnects : Bool)
    (h : st.wss = true ∨ st.isRelayMode = true) :
    startSidecar st port bind relayConnects =
      ({ st with relayPort := port }, StartOutcome.resolvedNoop) := by
  unfold startSidecar
  rcases h with h | h <;> simp [h]

/-- Witness for the amended C8 at a concrete Leader-mode state: a repeat
`startSidecar` call with a new port is a no-op apart from the stored
port, regardless of the I/O oracles. -/
theorem claim_C8_start_idempotent_up_to_port_witness :
    (sampleLeaderState.wss = true ∨ sampleLeaderState.isRelayMode = true) ∧
    startSidecar sampleLeaderState 1234 BindOutcome.ok true =
      ({ sampleLeaderState with relayPort := 1234 },
        StartOutcome.resolvedNoop) :=
  ⟨Or.inl rfl,
    claim_C8_start_idempotent_up_to_port sampleLeaderState 1234
      BindOutcome.ok true (Or.inl rfl)⟩

/-- Claim C10: in Relay mode the read-only status queries report as if
no clients exist — `hasConnectedDrawioClient` is `false` for every
`filePath` argument and with none, `getClientCount` reports zero clients
with `relayMode: true` and no registered files — and consequently the
`add_node` tool gate always takes the file-I/O fallback path. -/
theorem claim_C10_relay_status_queries (resolve : String → String)
    (st : SidecarState) (fp : Option String) (p : String)
    (h : st.isRelayMode = true) :
    hasConnectedDrawioClient resolve st fp = false ∧
    getClientCount st =
      { extensions := 0, drawioPlugins := 0, relayMode := true,
        registeredFiles := [] } ∧
    addNodeEditPath resolve st p = EditPath.fileFallback := by
  refine ⟨?_, ?_, ?_⟩
  · simp [hasConnectedDrawioClient, h]
  · simp [getClientCount, h]
  · simp [addNodeEditPath, hasConnectedDrawioClient, h]

/-- Witness for C10 at a concrete Relay-mode state with a concrete file
path argument. -/
theorem claim_C10_relay_status_queries_witness :
    sampleRelayState.isRelayMode = true ∧
    (hasConnectedDrawioClient (fun s => s) sampleRelayState
        (some "/tmp/a.drawio") = false ∧
      getClientCount sampleRelayState =
        { extensions := 0, drawioPlugins := 0, relayMode := true,
          registeredFiles := [] } ∧
      addNodeEditPath (fun s => s) sampleRelayState "/tmp/a.drawio" =
        EditPath.fileFallback) :=
  ⟨rfl,
    claim_C10_relay_status_queries (fun s => s) sampleRelayState
      (some "/tmp/a.drawio") "/tmp/a.drawio" rfl⟩

end DrawioSidecar
